import Mathlib

/-!
Verification development for the multi-project task manager
(`manager/models.py`, `manager/dispatcher.py`, `manager/app.py`,
`manager/task_scheduler.py`, `manager/container_pool.py`).

The Python data model and the operations the claims are about are shallowly
embedded below.  Pure data is translated structure-for-structure from
`models.py`; the stateful dispatcher operations become explicit
queue-in/queue-out functions; fallible Python code (pydantic raising on
undeclared fields, `TypeError` on a bad keyword call, subprocess timeouts)
is modelled with `Except`/sum results.  The file system holding
`projects.json` and each project's `tasks.json` is modelled as an
association list from project id to task queue; calls are sequential, so a
single snapshot of that store stands for the files during one operation.
-/

namespace Manager

/-! ## Data model (`manager/models.py`) -/

/-- The `TaskStatus` enum of `models.py` (lines 53-64). -/
inductive TaskStatus where
  | pending
  | claimed
  | running
  | plan_pending
  | plan_approved
  | merging
  | testing
  | merge_pending
  | completed
  | failed
  | cancelled
deriving DecidableEq, Repr

/-- One chat message of plan mode: the dicts built in `app.py`
(`plan_messages.append(dict(role=..., content=..., timestamp=...))`). -/
structure PlanMessage where
  role : String
  content : String
  timestamp : String
deriving DecidableEq, Repr

/-- The `Task` pydantic model of `models.py` (lines 67-84), field for field.
The model declares NO `plan_mode`, `plan_messages` or `plan_session_id`
field; pydantic raises on attribute access and on assignment for
undeclared fields, which the operations below model with `Except`.
`plan_questions` (list of dicts) and `plan_answers` (a dict) are modelled
as association-list data; no claim looks inside them. -/
structure Task where
  id : String
  title : String
  description : String
  status : TaskStatus
  priority : Int
  worker_id : Option String
  branch : Option String
  plan : Option String
  plan_approved : Bool
  plan_questions : Option (List (List (String × String)))
  plan_answers : Option (List (String × String))
  depends_on : Option String
  commit_id : Option String
  error : Option String
  created_at : String
  started_at : Option String
  completed_at : Option String
deriving DecidableEq, Repr

/-- The `TaskQueue` model of `models.py` (lines 96-97): the content of a
project's `tasks.json`. -/
structure TaskQueue where
  tasks : List Task
deriving DecidableEq, Repr

/-- The `ProjectStatus` enum of `models.py` (lines 17-20). -/
inductive ProjectStatus where
  | cloning
  | ready
  | error
deriving DecidableEq, Repr

/-- The `Project` pydantic model of `models.py` (lines 23-33). -/
structure Project where
  id : String
  name : String
  repo_url : Option String
  branch : String
  source_type : String
  auto_merge : Bool
  auto_push : Bool
  status : ProjectStatus
  error : Option String
  created_at : String
deriving DecidableEq, Repr

/-- The `ProjectRegistry` model of `models.py` (lines 45-46): the content of
`projects.json`. -/
structure ProjectRegistry where
  projects : List Project
deriving DecidableEq, Repr

/-! ## The task-queue store

`dispatcher.py` keeps one `tasks.json` per project under
`/app/data/projects/<pid>/tasks.json`.  The collection of these files is
modelled as an association list from project id to `TaskQueue`. -/

/-- The collection of on-disk `tasks.json` files, keyed by project id. -/
def Store : Type := List (String × TaskQueue)

/-- `_read_queue` of `dispatcher.py` (lines 35-41): a missing or unreadable
file yields the empty `TaskQueue()`. -/
def read_queue (store : Store) (project_id : String) : TaskQueue :=
  match store.lookup project_id with
  | some q => q
  | none => TaskQueue.mk []

/-- `_write_queue` of `dispatcher.py` (lines 44-47): replace the project's
`tasks.json` content. -/
def write_queue (store : Store) (project_id : String) (q : TaskQueue) : Store :=
  match store with
  | [] => [(project_id, q)]
  | (pid, q0) :: rest =>
      if pid = project_id then (pid, q) :: rest
      else (pid, q0) :: write_queue rest project_id q

/-- `get_task` of `dispatcher.py` (lines 208-216): first task with the given
id, if any. -/
def get_task (q : TaskQueue) (task_id : String) : Option Task :=
  q.tasks.find? (fun t => t.id = task_id)

/-! ## `claim_next` (`dispatcher.py` lines 294-349) -/

/-- A candidate entry of `all_candidates` in `claim_next`: the source keeps
`(project_id, tasks_file, lock_file, task)`; the two file paths are
functions of the project id, so only `(project_id, task)` is kept. -/
structure Candidate where
  project_id : String
  task : Task
deriving DecidableEq, Repr

/-- The `completed_ids` set built per project in `claim_next` (line 314). -/
def completed_ids (q : TaskQueue) : List String :=
  (q.tasks.filter (fun t => t.status = TaskStatus.completed)).map (fun t => t.id)

/-- The dependency filter of `claim_next` (line 319):
`if t.depends_on and t.depends_on not in completed_ids: continue`.
A task is kept when `t.depends_on` is falsy (Python: `None` or the empty
string) or is among the completed ids. -/
def dependency_ok (completed : List String) (t : Task) : Bool :=
  match t.depends_on with
  | none => true
  | some d => if d = "" then true else decide (d ∈ completed)

/-- The per-project candidate collection of `claim_next` (lines 313-321):
tasks with status `plan_approved` or `pending` whose dependency filter
passes. -/
def project_candidates (project_id : String) (q : TaskQueue) : List Candidate :=
  let completed := completed_ids q
  (q.tasks.filter (fun t =>
      (decide (t.status = TaskStatus.plan_approved) ||
       decide (t.status = TaskStatus.pending)) &&
      dependency_ok completed t)).map (fun t => Candidate.mk project_id t)

/-- `status_priority` of `claim_next.sort_key` (line 331):
`0 if t.status == PLAN_APPROVED else 1`. -/
def status_priority (t : Task) : Nat :=
  if t.status = TaskStatus.plan_approved then 0 else 1

/-- Python string comparison (lexicographic by code point) on the underlying
character lists; used for the `created_at` component of the sort key. -/
def chars_le : List Char → List Char → Bool
  | [], _ => true
  | _ :: _, [] => false
  | a :: as, b :: bs =>
      if a.toNat < b.toNat then true
      else if b.toNat < a.toNat then false
      else chars_le as bs

/-- Python `<=` on strings. -/
def str_le (a b : String) : Bool :=
  chars_le a.data b.data

/-- Comparison of the tuples produced by `sort_key` (line 332):
`(status_priority, -t.priority, t.created_at)` compared as Python compares
tuples, component-lexicographically.  `list.sort` with this key is a stable
sort under this `less-or-equal`. -/
def key_le (a b : Candidate) : Bool :=
  decide (status_priority a.task < status_priority b.task) ||
  (decide (status_priority a.task = status_priority b.task) &&
    (decide ((-a.task.priority) < (-b.task.priority)) ||
     (decide ((-a.task.priority) = (-b.task.priority)) &&
      str_le a.task.created_at b.task.created_at)))

/-- The `ready_projects` filter of `claim_next` (line 304). -/
def ready_projects (reg : ProjectRegistry) : List Project :=
  reg.projects.filter (fun p => p.status = ProjectStatus.ready)

/-- The full `all_candidates` list of `claim_next` (lines 306-321), scanning
projects in registry order and each queue in file order. -/
def all_candidates (reg : ProjectRegistry) (store : Store) : List Candidate :=
  (ready_projects reg).flatMap
    (fun p => project_candidates p.id (read_queue store p.id))

/-- The selection step of `claim_next` (lines 325-337):
`all_candidates.sort(key=sort_key); best = all_candidates[0]`.  Python
`list.sort` is a stable merge sort, modelled by `List.mergeSort` with
`key_le`; the selected element is the head of the sorted list (`none` when
there are no candidates, matching the early `return None`). -/
def selected (reg : ProjectRegistry) (store : Store) : Option Candidate :=
  ((all_candidates reg store).mergeSort key_le).head?

/-- The claim loop of `claim_next` (lines 340-347): find the first task with
the winner's id whose status is unchanged, set it to `claimed`, assign the
worker and stamp `started_at`. -/
def claim_in_list (best : Task) (worker_id now : String) :
    List Task → Option (List Task × Task)
  | [] => none
  | t :: ts =>
      if t.id = best.id ∧ t.status = best.status then
        let t2 : Task :=
          { t with
            status := TaskStatus.claimed
            worker_id := some worker_id
            started_at := some now }
        some (t2 :: ts, t2)
      else
        match claim_in_list best worker_id now ts with
        | some (ts2, c) => some (t :: ts2, c)
        | none => none

/-- `claim_next` of `dispatcher.py` (lines 294-349).  `now` stands for
`datetime.utcnow().isoformat()`.  Returns the claimed `(project_id, task)`
(or `none`) together with the store after the write-back. -/
def claim_next (reg : ProjectRegistry) (store : Store) (worker_id now : String) :
    Option (String × Task) × Store :=
  match selected reg store with
  | none => (none, store)
  | some best =>
      let q := read_queue store best.project_id
      match claim_in_list best.task worker_id now q.tasks with
      | some (ts, c) =>
          (some (best.project_id, c),
           write_queue store best.project_id (TaskQueue.mk ts))
      | none => (none, store)

/-! ## `update_task_status` (`dispatcher.py` lines 352-395) -/

/-- The field assignments of `update_task_status` on the matching task, in
source order.  `Task` (models.py lines 67-84) declares neither a
`plan_messages` nor a `plan_session_id` field, and a pydantic `BaseModel`
raises `ValueError` on assignment to an undeclared field, so the
assignments `task.plan_messages = ...` / `task.plan_session_id = ...`
(lines 386, 388) raise whenever those arguments are not `None`; the raise
aborts the whole operation before `_write_queue` runs. -/
def update_task_fields (t : Task) (status : TaskStatus)
    (error commit_id plan branch : Option String)
    (plan_questions : Option (List (List (String × String))))
    (plan_answers : Option (List (String × String)))
    (plan_messages : Option (List PlanMessage))
    (plan_session_id : Option String)
    (depends_on : Option String) (now : String) : Except String Task :=
  let t1 := { t with status := status }
  let t2 := match error with
    | some e => { t1 with error := some e }
    | none => t1
  let t3 := match commit_id with
    | some c => { t2 with commit_id := some c }
    | none => t2
  let t4 := match plan with
    | some p => { t3 with plan := some p }
    | none => t3
  let t5 := match branch with
    | some b => { t4 with branch := some b }
    | none => t4
  let t6 := match plan_questions with
    | some qs => { t5 with plan_questions := some qs }
    | none => t5
  let t7 := match plan_answers with
    | some a => { t6 with plan_answers := some a }
    | none => t6
  match plan_messages with
  | some _ => Except.error "ValueError: Task object has no field plan_messages"
  | none =>
  match plan_session_id with
  | some _ => Except.error "ValueError: Task object has no field plan_session_id"
  | none =>
  let t8 := match depends_on with
    | some d => { t7 with depends_on := some d }
    | none => t7
  let t9 := if status = TaskStatus.completed then
      { t8 with completed_at := some now }
    else t8
  Except.ok t9

/-- The task-queue loop of `update_task_status` (lines 370-394): update the
first task with the given id; the remaining tasks are untouched. -/
def update_in_list (task_id : String) (status : TaskStatus)
    (error commit_id plan branch : Option String)
    (plan_questions : Option (List (List (String × String))))
    (plan_answers : Option (List (String × String)))
    (plan_messages : Option (List PlanMessage))
    (plan_session_id : Option String)
    (depends_on : Option String) (now : String) :
    List Task → Except String (List Task × Option Task)
  | [] => Except.ok ([], none)
  | t :: ts =>
      if t.id = task_id then
        match update_task_fields t status error commit_id plan branch
            plan_questions plan_answers plan_messages plan_session_id
            depends_on now with
        | Except.error e => Except.error e
        | Except.ok t2 => Except.ok (t2 :: ts, some t2)
      else
        match update_in_list task_id status error commit_id plan branch
            plan_questions plan_answers plan_messages plan_session_id
            depends_on now ts with
        | Except.error e => Except.error e
        | Except.ok (ts2, r) => Except.ok (t :: ts2, r)

/-- `update_task_status` of `dispatcher.py` (lines 352-395) on one project
queue.  On success returns the queue as written back together with the
updated task (`none` when no task has the id — in that case the file is
not rewritten and the queue comes back unchanged); an `Except.error` is a
pydantic raise, which leaves the file untouched. -/
def update_task_status (q : TaskQueue) (task_id : String) (status : TaskStatus)
    (error commit_id plan branch : Option String)
    (plan_questions : Option (List (List (String × String))))
    (plan_answers : Option (List (String × String)))
    (plan_messages : Option (List PlanMessage))
    (plan_session_id : Option String)
    (depends_on : Option String) (now : String) :
    Except String (TaskQueue × Option Task) :=
  match update_in_list task_id status error commit_id plan branch
      plan_questions plan_answers plan_messages plan_session_id
      depends_on now q.tasks with
  | Except.error e => Except.error e
  | Except.ok (ts, r) => Except.ok (TaskQueue.mk ts, r)

/-! ## HTTP endpoints (`manager/app.py`) -/

/-- Outcome of the cancel endpoint (`app.py` lines 337-366), as seen by the
client: 200 with `status: cancelled`, 404 for an unknown task, 400 for a
non-cancellable status. -/
inductive CancelOutcome where
  | ok
  | not_found
  | bad_request
deriving DecidableEq, Repr

/-- The `cancellable_direct` set of `cancel_task` (lines 342-345). -/
def cancellable_direct (s : TaskStatus) : Bool :=
  decide (s = TaskStatus.pending) || decide (s = TaskStatus.plan_pending) ||
  decide (s = TaskStatus.plan_approved) || decide (s = TaskStatus.failed)

/-- The `cancellable_running` set of `cancel_task` (lines 346-349). -/
def cancellable_running (s : TaskStatus) : Bool :=
  decide (s = TaskStatus.claimed) || decide (s = TaskStatus.running) ||
  decide (s = TaskStatus.merging) || decide (s = TaskStatus.testing)

/-- `cancel_task` of `app.py` (lines 337-366) acting on the project's task
queue.  The returned Bool records whether the running-cancellable branch
asked the pool to stop the worker holding the task.  Both cancelling
branches call `update_task_status(..., status=CANCELLED)` with no other
arguments, which cannot raise; the fallback arm keeping `q` is
unreachable. -/
def cancel_task (q : TaskQueue) (task_id now : String) :
    CancelOutcome × TaskQueue × Bool :=
  match get_task q task_id with
  | none => (CancelOutcome.not_found, q, false)
  | some t =>
      if cancellable_running t.status then
        match update_task_status q task_id TaskStatus.cancelled
            none none none none none none none none none now with
        | Except.ok (q2, _) => (CancelOutcome.ok, q2, true)
        | Except.error _ => (CancelOutcome.ok, q, true)
      else if cancellable_direct t.status then
        match update_task_status q task_id TaskStatus.cancelled
            none none none none none none none none none now with
        | Except.ok (q2, _) => (CancelOutcome.ok, q2, false)
        | Except.error _ => (CancelOutcome.ok, q, false)
      else
        (CancelOutcome.bad_request, q, false)

/-- Outcome of the retry endpoint (`app.py` lines 369-392). `server_error`
is an unhandled Python exception escaping the handler (HTTP 500). -/
inductive RetryOutcome where
  | retrying_plan
  | retrying
  | not_found
  | bad_request
  | server_error (msg : String)
deriving DecidableEq, Repr

/-- The `retryable` set of `retry_task` (line 374). -/
def retryable (s : TaskStatus) : Bool :=
  decide (s = TaskStatus.failed) || decide (s = TaskStatus.cancelled) ||
  decide (s = TaskStatus.completed) || decide (s = TaskStatus.plan_pending)

/-- `retry_task` of `app.py` (lines 369-392).  After the `retryable` check
the handler branches on `task.plan_mode` (line 380) — but `Task`
(models.py lines 67-84) declares no `plan_mode` field (`TaskCreate` has
one, and `add_task` passes it to the `Task` constructor, where pydantic
silently drops the unknown keyword), and pydantic raises
`AttributeError` on access to an undeclared field.  The handler therefore
raises before either `update_task_status` call, and the queue is left
unchanged. -/
def retry_task (q : TaskQueue) (task_id : String) :
    RetryOutcome × TaskQueue :=
  match get_task q task_id with
  | none => (RetryOutcome.not_found, q)
  | some t =>
      if retryable t.status then
        (RetryOutcome.server_error
          "AttributeError: Task object has no attribute plan_mode", q)
      else
        (RetryOutcome.bad_request, q)

/-- The persisting call of `_generate_plan_async` on its success path
(`app.py` lines 809-815): `update_task_status(..., status=PLAN_PENDING,
plan=plan_text, plan_messages=[assistant message], plan_session_id=
session_id)`.  `plan_messages` is always a non-None one-element list
there. -/
def generate_plan_success_update (q : TaskQueue)
    (task_id plan_text : String) (session_id : Option String) (now : String) :
    Except String (TaskQueue × Option Task) :=
  update_task_status q task_id TaskStatus.plan_pending
    none none (some plan_text) none none none
    (some [PlanMessage.mk "assistant" plan_text now])
    session_id none now

/-! ## Scheduler (`manager/task_scheduler.py`) and container pool
(`manager/container_pool.py`) -/

/-- Outcome of the `subprocess.run` call in `_do_merge_and_test`
(`task_scheduler.py` lines 177-208): normal completion with exit code and
captured output; `subprocess.TimeoutExpired` (whose `stdout`/`stderr` may
be `None`, already defaulted to the empty string here as by `e.stdout or
""`); or any other exception with its message. -/
inductive RunOutcome where
  | finished (returncode : Int) (stdout stderr : String)
  | timedout (stdout stderr : String)
  | excepted (msg : String)
deriving DecidableEq, Repr

/-- Python `str.strip()` with no argument on the character list: drop
whitespace from both ends. -/
def strip_chars (l : List Char) : List Char :=
  ((l.dropWhile Char.isWhitespace).reverse.dropWhile Char.isWhitespace).reverse

/-- Python `str.strip()`. -/
def py_strip (s : String) : String :=
  String.mk (strip_chars s.data)

/-- Python `"\n".join(part for part in (stdout, stderr) if part).strip()`
(`task_scheduler.py` lines 182, 201): drop falsy (empty) parts, join with
a newline, strip surrounding whitespace. -/
def merge_output_of (stdout stderr : String) : String :=
  py_strip (String.intercalate "\n" ([stdout, stderr].filter (fun s => s ≠ "")))

/-- The reason-extraction scan of `_do_merge_and_test` (lines 184-189):
walk the output lines in reverse for one containing `MERGE_TEST_ERROR:`
and take the text after the first marker, stripped. -/
def extract_marker_reason (output : String) : Option String :=
  match (output.splitOn "\n").reverse.find?
      (fun l => (l.splitOn "MERGE_TEST_ERROR:").length > 1) with
  | some l =>
      some (py_strip (String.intercalate "MERGE_TEST_ERROR:"
        ((l.splitOn "MERGE_TEST_ERROR:").drop 1)))
  | none => none

/-- The fallback reason of `_do_merge_and_test` (lines 191-195) when there
is no marker and the exit code is non-zero: last line of the output, or a
generic exit-code message when there is no output. -/
def fallback_reason (returncode : Int) (output : String) : String :=
  if output ≠ "" then
    py_strip (((output.splitOn "\n").getLast?).getD "")
  else
    "merge_and_test exit code " ++ toString returncode

/-- `_do_merge_and_test` of `task_scheduler.py` (lines 160-208), as a
function of the subprocess outcome.  Returns
`(success, failure_reason, combined_output)`. -/
def do_merge_and_test (r : RunOutcome) : Bool × String × String :=
  match r with
  | RunOutcome.finished returncode stdout stderr =>
      let output := merge_output_of stdout stderr
      let reason0 := (extract_marker_reason output).getD ""
      let reason :=
        if reason0 = "" ∧ returncode ≠ 0 then fallback_reason returncode output
        else reason0
      (decide (returncode = 0), reason, output)
  | RunOutcome.timedout stdout stderr =>
      (false, "merge_and_test timeout after 600s", merge_output_of stdout stderr)
  | RunOutcome.excepted msg =>
      (false, "merge_and_test execution error: " ++ msg, "")

/-- Whether `_cleanup_worktree` (`task_scheduler.py` lines 285-292) was
called, and with which `delete_branch` flag: the worktree is always
removed; the branch only when the flag is true. -/
inductive WorktreeCleanup where
  | not_called
  | called (delete_branch : Bool)
deriving DecidableEq, Repr

/-- External results consumed by the merge phase of `_handle_task`
(`task_scheduler.py` lines 417-505): the `_do_merge_and_test` triple, the
`_do_auto_merge` result (final commit or `None`), and the
`git rev-parse HEAD` run in the worktree (`stdout.strip()` when
`returncode == 0`, else `none`, in which case the code records
`"unknown"`). -/
structure MergePhaseEnv where
  merge_ok : Bool
  merge_reason : String
  merge_output : String
  auto_merge_commit : Option String
  worktree_head : Option String
deriving DecidableEq, Repr

/-- The merge phase of `_handle_task` (`task_scheduler.py` lines 417-505):
everything under the per-project git lock, plus the final status update.
Returns the project queue after the status update and the cleanup mode.
The `update_task_status` calls pass no plan fields and cannot raise; the
error arms keeping `q` are unreachable. -/
def handle_task_merge_phase (p : Project) (env : MergePhaseEnv)
    (q : TaskQueue) (task_id now : String) : TaskQueue × WorktreeCleanup :=
  if ¬ env.merge_ok then
    -- lines 424-444: set FAILED with the extracted reason, cleanup with
    -- branch deletion
    let failure_reason :=
      if env.merge_reason ≠ "" then env.merge_reason else "merge or test failed"
    match update_task_status q task_id TaskStatus.failed
        (some ("merge or test failed: " ++ failure_reason))
        none none none none none none none none now with
    | Except.ok (q2, _) => (q2, WorktreeCleanup.called true)
    | Except.error _ => (q, WorktreeCleanup.called true)
  else if p.auto_merge then
    match env.auto_merge_commit with
    | some final_commit =>
        -- lines 452-469: COMPLETED with the merge commit, cleanup with
        -- branch deletion
        (match update_task_status q task_id TaskStatus.completed
            none (some final_commit) none none none none none none none now with
         | Except.ok (q2, _) => (q2, WorktreeCleanup.called true)
         | Except.error _ => (q, WorktreeCleanup.called true))
    | none =>
        -- lines 470-485: auto-merge failed; record the worktree HEAD (or
        -- "unknown"), set MERGE_PENDING, cleanup keeping the branch
        let final_commit := env.worktree_head.getD "unknown"
        (match update_task_status q task_id TaskStatus.merge_pending
            none (some final_commit) none none none none none none none now with
         | Except.ok (q2, _) => (q2, WorktreeCleanup.called false)
         | Except.error _ => (q, WorktreeCleanup.called false))
  else
    -- lines 486-503: manual merge mode, same MERGE_PENDING path
    let final_commit := env.worktree_head.getD "unknown"
    match update_task_status q task_id TaskStatus.merge_pending
        none (some final_commit) none none none none none none none now with
    | Except.ok (q2, _) => (q2, WorktreeCleanup.called false)
    | Except.error _ => (q, WorktreeCleanup.called false)

/-- The parameters of `ContainerPool.run_task` (`container_pool.py` lines
53-63), `self` excluded (it is bound by the method call). -/
def run_task_params : List String :=
  ["worker_id", "project_id", "project_name", "task",
   "worktree_path", "repo_path", "log_dir", "branch_name"]

/-- The keyword arguments of the `pool.run_task(...)` call in
`_handle_task` (`task_scheduler.py` lines 337-347). -/
def handle_task_run_task_kwargs : List String :=
  ["worker_id", "project_id", "project_name", "task",
   "worktree_path", "repo_path", "log_dir", "branch_name",
   "cross_project_experience"]

/-- Python call binding for a function with no `**kwargs` catch-all: every
keyword argument of the call must name a declared parameter, otherwise
the call raises `TypeError` before the callee body runs. -/
def kwargs_accepted (params kwargs : List String) : Bool :=
  kwargs.all (fun k => params.contains k)

/-- The stages of one `_handle_task` lifecycle (`task_scheduler.py` lines
295-506), in source order. -/
inductive Stage where
  | load_project
  | create_worktree
  | load_experience
  | start_container
  | wait_container
  | check_status
  | verify_commit
  | merge_and_test
  | auto_merge_step
deriving DecidableEq, Repr

/-- External results consumed by `_handle_task` up to and including the
container wait. -/
structure HandleEnv where
  project : Option Project
  worktree_ok : Bool
  container_started : Bool
  exit_code : Int
  reported_status : Option TaskStatus
  commit_check_ok : Bool
  diff_check_ok : Bool
deriving DecidableEq, Repr

/-- The stages actually reached by `_handle_task` (`task_scheduler.py`
lines 295-505).  The `pool.run_task(...)` call at lines 337-347 passes the
keyword argument `cross_project_experience`, which
`ContainerPool.run_task` (container_pool.py lines 53-63) does not declare;
when the keyword set is not accepted the call raises `TypeError`, the
coroutine aborts, and no later stage runs. -/
def handle_task_stages (env : HandleEnv) : List Stage :=
  match env.project with
  | none => [Stage.load_project]
  | some _ =>
      if ¬ env.worktree_ok then
        [Stage.load_project, Stage.create_worktree]
      else if ¬ kwargs_accepted run_task_params handle_task_run_task_kwargs then
        -- TypeError raised at the call itself
        [Stage.load_project, Stage.create_worktree, Stage.load_experience,
         Stage.start_container]
      else if ¬ env.container_started then
        [Stage.load_project, Stage.create_worktree, Stage.load_experience,
         Stage.start_container]
      else
        let head := [Stage.load_project, Stage.create_worktree,
          Stage.load_experience, Stage.start_container, Stage.wait_container,
          Stage.check_status]
        if env.reported_status = some TaskStatus.failed then head
        else if env.reported_status ≠ some TaskStatus.merging ∧
            env.exit_code ≠ 0 then head
        else if ¬ env.commit_check_ok then head ++ [Stage.verify_commit]
        else if ¬ env.diff_check_ok then head ++ [Stage.verify_commit]
        else head ++ [Stage.verify_commit, Stage.merge_and_test,
          Stage.auto_merge_step]

/-! ## Derived forms and concrete fixtures -/

/-- The effect of `update_task_fields` when no plan-message fields are
passed (so that pydantic does not raise): each optional argument
overwrites its field when present, and `completed_at` is stamped exactly
when the new status is `completed`. -/
def applied_update (t : Task) (status : TaskStatus)
    (error commit_id plan branch : Option String)
    (plan_questions : Option (List (List (String × String))))
    (plan_answers : Option (List (String × String)))
    (depends_on : Option String) (now : String) : Task :=
  { t with
    status := status
    error := error.or t.error
    commit_id := commit_id.or t.commit_id
    plan := plan.or t.plan
    branch := branch.or t.branch
    plan_questions := plan_questions.or t.plan_questions
    plan_answers := plan_answers.or t.plan_answers
    depends_on := depends_on.or t.depends_on
    completed_at :=
      if status = TaskStatus.completed then some now else t.completed_at }

/-- Fixture: a neutral task used to build concrete test inputs. -/
def baseTask : Task :=
  { id := "t0"
    title := "add hello"
    description := "add hello"
    status := TaskStatus.pending
    priority := 0
    worker_id := none
    branch := none
    plan := none
    plan_approved := false
    plan_questions := none
    plan_answers := none
    depends_on := none
    commit_id := none
    error := none
    created_at := "2024-01-01T00:00:00"
    started_at := none
    completed_at := none }

/-- Fixture for C1: a task already in the terminal status `completed`. -/
def c1Task : Task :=
  { baseTask with id := "t1", status := TaskStatus.completed }

/-- Fixture for C1: the queue holding `c1Task`. -/
def c1Queue : TaskQueue := TaskQueue.mk [c1Task]

/-- Fixture for C3: a task in the terminal status `failed`. -/
def c3Task : Task :=
  { baseTask with id := "t3", status := TaskStatus.failed }

/-- Fixture for C3: the queue holding `c3Task`. -/
def c3Queue : TaskQueue := TaskQueue.mk [c3Task]

/-- Fixture for C4: first-enumerated pending task, larger id `zz`. -/
def c4TaskZ : Task := { baseTask with id := "zz" }

/-- Fixture for C4: later-enumerated pending task, smaller id `aa`, with
the same priority and creation timestamp as `c4TaskZ`. -/
def c4TaskA : Task := { baseTask with id := "aa" }

/-- Fixture for C4: a ready project. -/
def c4Proj : Project :=
  { id := "p4"
    name := "proj4"
    repo_url := none
    branch := "main"
    source_type := "git"
    auto_merge := true
    auto_push := false
    status := ProjectStatus.ready
    error := none
    created_at := "2024-01-01T00:00:00" }

/-- Fixture for C4: the registry holding only `c4Proj`. -/
def c4Reg : ProjectRegistry := ProjectRegistry.mk [c4Proj]

/-- Fixture for C4: the store with both tied tasks, `c4TaskZ` first. -/
def c4Store : Store := [("p4", TaskQueue.mk [c4TaskZ, c4TaskA])]

/-- Fixture for C4: the candidate built from `c4TaskZ`. -/
def c4CandZ : Candidate := Candidate.mk "p4" c4TaskZ

/-- Fixture for C4: the candidate built from `c4TaskA`. -/
def c4CandA : Candidate := Candidate.mk "p4" c4TaskA

/-- Fixture for C5 witness: a completed predecessor task. -/
def c5Dep : Task :=
  { baseTask with id := "d1", status := TaskStatus.completed }

/-- Fixture for C5 witness: a pending task depending on `c5Dep`. -/
def c5Main : Task :=
  { baseTask with id := "m1", depends_on := some "d1" }

/-- Fixture for C5 witness: a ready project. -/
def c5Proj : Project := { c4Proj with id := "p5", name := "proj5" }

/-- Fixture for C5 witness: the registry holding only `c5Proj`. -/
def c5Reg : ProjectRegistry := ProjectRegistry.mk [c5Proj]

/-- Fixture for C5 witness: the store with the dependent pair. -/
def c5Store : Store := [("p5", TaskQueue.mk [c5Dep, c5Main])]

/-- Fixture for the C5 counterexample: a pending task whose `depends_on`
is the empty string (falsy in Python, so the dependency filter skips
it). -/
def cETask : Task :=
  { baseTask with id := "e1", depends_on := some "" }

/-- Fixture for the C5 counterexample: a ready project. -/
def cEProj : Project := { c4Proj with id := "pe", name := "projE" }

/-- Fixture for the C5 counterexample: its registry. -/
def cEReg : ProjectRegistry := ProjectRegistry.mk [cEProj]

/-- Fixture for the C5 counterexample: its store. -/
def cEStore : Store := [("pe", TaskQueue.mk [cETask])]

/-- Fixture for C6: a claimed task holding worker slot `worker-1`. -/
def c6Task : Task :=
  { baseTask with
      id := "t6"
      status := TaskStatus.claimed
      worker_id := some "worker-1"
      started_at := some "2024-01-01T01:00:00" }

/-- Fixture for C6: the queue holding `c6Task`. -/
def c6Queue : TaskQueue := TaskQueue.mk [c6Task]

/-- Fixture for C7 witness: a running task. -/
def c7Task : Task :=
  { baseTask with
      id := "t7"
      status := TaskStatus.running
      worker_id := some "worker-2" }

/-- Fixture for C7 witness: the queue holding `c7Task` and a completed
neighbour. -/
def c7Queue : TaskQueue := TaskQueue.mk [c1Task, c7Task]

/-- Fixture for C8 witness: a merging task. -/
def c8Task : Task :=
  { baseTask with
      id := "t8"
      status := TaskStatus.merging
      worker_id := some "worker-1"
      branch := some "claude/t8" }

/-- Fixture for C8 witness: the queue holding `c8Task`. -/
def c8Queue : TaskQueue := TaskQueue.mk [c8Task]

/-- Fixture for C8 witness: an auto-merge project. -/
def c8Proj : Project := { c4Proj with id := "p8", name := "proj8" }

/-- Fixture for C8 witness: merge-and-test succeeded, `_do_auto_merge`
returned `None`, and `git rev-parse HEAD` in the worktree printed
`abc123`. -/
def c8Env : MergePhaseEnv :=
  { merge_ok := true
    merge_reason := ""
    merge_output := "ok"
    auto_merge_commit := none
    worktree_head := some "abc123" }

/-- Fixture for C10 witness: a plan-pending task. -/
def c10Task : Task :=
  { baseTask with id := "ta", status := TaskStatus.plan_pending }

/-- Fixture for C10 witness: the queue holding `c10Task`. -/
def c10Queue : TaskQueue := TaskQueue.mk [c10Task]

/-- The task as mutated by the claim loop of `claim_next` (lines 343-345). -/
def claimed_of (t : Task) (worker_id now : String) : Task :=
  { t with
    status := TaskStatus.claimed
    worker_id := some worker_id
    started_at := some now }

/-- Fixture for C5 witness: `c5Main` as returned by `claim_next`. -/
def c5Claimed : Task := claimed_of c5Main "w1" "2024-01-03T00:00:00"

/-- Fixture for the C5 counterexample: `cETask` as returned by
`claim_next`. -/
def cEClaimed : Task := claimed_of cETask "w1" "2024-01-03T00:00:00"

/-- Fixture for C6: `c6Task` after being moved to `completed` by
`update_task_status`. -/
def c6Done : Task :=
  { c6Task with
    status := TaskStatus.completed
    completed_at := some "2024-01-02T00:00:00" }

/-- Fixture for C8: `c8Task` after the auto-merge-failure path. -/
def c8Done : Task :=
  { c8Task with
    status := TaskStatus.merge_pending
    commit_id := some "abc123" }

/-! ## Order lemmas for the sort key -/

theorem chars_le_total : ∀ a b : List Char, (chars_le a b || chars_le b a) = true := by
  intro a
  induction a with
  | nil => intro b; simp [chars_le]
  | cons x xs ih =>
    intro b
    cases b with
    | nil => simp [chars_le]
    | cons y ys =>
      simp only [chars_le]
      by_cases h1 : x.toNat < y.toNat
      · simp [h1]
      · by_cases h2 : y.toNat < x.toNat
        · simp [h1, h2]
        · simp [h1, h2, ih ys]

theorem chars_le_trans :
    ∀ a b c : List Char, chars_le a b = true → chars_le b c = true →
      chars_le a c = true := by
  intro a
  induction a with
  | nil => intro b c _ _; simp [chars_le]
  | cons x xs ih =>
    intro b c hab hbc
    cases b with
    | nil => simp [chars_le] at hab
    | cons y ys =>
      cases c with
      | nil => simp [chars_le] at hbc
      | cons z zs =>
        simp only [chars_le] at hab hbc ⊢
        by_cases hxy : x.toNat < y.toNat
        · by_cases hyz : y.toNat < z.toNat
          · simp [show x.toNat < z.toNat by omega]
          · by_cases hzy : z.toNat < y.toNat
            · simp [hyz, hzy] at hbc
            · simp [show x.toNat < z.toNat by omega]
        · by_cases hyx : y.toNat < x.toNat
          · simp [hxy, hyx] at hab
          · simp only [if_neg hxy, if_neg hyx] at hab
            by_cases hyz : y.toNat < z.toNat
            · simp [show x.toNat < z.toNat by omega]
            · by_cases hzy : z.toNat < y.toNat
              · simp [hyz, hzy] at hbc
              · simp only [if_neg hyz, if_neg hzy] at hbc
                simp only [if_neg (show ¬ x.toNat < z.toNat by omega),
                  if_neg (show ¬ z.toNat < x.toNat by omega)]
                exact ih ys zs hab hbc

theorem str_le_total (a b : String) : (str_le a b || str_le b a) = true :=
  chars_le_total a.data b.data

theorem str_le_trans (a b c : String) (hab : str_le a b = true)
    (hbc : str_le b c = true) : str_le a c = true :=
  chars_le_trans a.data b.data c.data hab hbc

theorem key_le_total : ∀ a b : Candidate, (key_le a b || key_le b a) = true := by
  intro a b
  simp only [key_le, Bool.or_eq_true, Bool.and_eq_true, decide_eq_true_eq]
  rcases lt_trichotomy (status_priority a.task) (status_priority b.task) with h | h | h
  · exact Or.inl (Or.inl h)
  · rcases lt_trichotomy (-a.task.priority) (-b.task.priority) with h2 | h2 | h2
    · exact Or.inl (Or.inr ⟨h, Or.inl h2⟩)
    · have hst := str_le_total a.task.created_at b.task.created_at
      rw [Bool.or_eq_true] at hst
      rcases hst with hs | hs
      · exact Or.inl (Or.inr ⟨h, Or.inr ⟨h2, hs⟩⟩)
      · exact Or.inr (Or.inr ⟨h.symm, Or.inr ⟨h2.symm, hs⟩⟩)
    · exact Or.inr (Or.inr ⟨h.symm, Or.inl h2⟩)
  · exact Or.inr (Or.inl h)

theorem key_le_trans :
    ∀ a b c : Candidate, key_le a b = true → key_le b c = true →
      key_le a c = true := by
  intro a b c hab hbc
  simp only [key_le, Bool.or_eq_true, Bool.and_eq_true, decide_eq_true_eq]
    at hab hbc ⊢
  rcases hab with h1 | ⟨he1, hr1⟩
  · rcases hbc with h2 | ⟨he2, _⟩
    · exact Or.inl (lt_trans h1 h2)
    · exact Or.inl (he2 ▸ h1)
  · rcases hbc with h2 | ⟨he2, hr2⟩
    · exact Or.inl (he1 ▸ h2)
    · refine Or.inr ⟨he1.trans he2, ?_⟩
      rcases hr1 with p1 | ⟨pe1, s1⟩
      · rcases hr2 with p2 | ⟨pe2, _⟩
        · exact Or.inl (lt_trans p1 p2)
        · exact Or.inl (pe2 ▸ p1)
      · rcases hr2 with p2 | ⟨pe2, s2⟩
        · exact Or.inl (pe1 ▸ p2)
        · exact Or.inr ⟨pe1.trans pe2, str_le_trans _ _ _ s1 s2⟩

/-! ## Head of a stable merge sort

Python `list.sort` is a stable merge sort, so `all_candidates[0]` after
sorting is the first element in enumeration order whose key is minimal.
This is proved here for `List.mergeSort` with any transitive total
Boolean relation. -/

theorem find?_of_stronger {α : Type} {p q : α → Bool} :
    ∀ {l : List α} {x : α}, l.find? p = some x → q x = true →
      (∀ c, q c = true → p c = true) → l.find? q = some x := by
  intro l
  induction l with
  | nil => intro x h _ _; simp at h
  | cons a l ih =>
    intro x h hqx himp
    by_cases hpa : p a = true
    · rw [List.find?_cons_of_pos _ hpa] at h
      injection h with h
      subst h
      rw [List.find?_cons_of_pos _ hqx]
    · rw [List.find?_cons_of_neg _ (by simpa using hpa)] at h
      have hqa : ¬ q a = true := fun hq => hpa (himp a hq)
      rw [List.find?_cons_of_neg _ (by simpa using hqa)]
      exact ih h hqx himp

theorem head_mergeSort_eq_find_first_min {α : Type} {le : α → α → Bool}
    (htrans : ∀ a b c, le a b = true → le b c = true → le a c = true)
    (htotal : ∀ a b, (le a b || le b a) = true) :
    ∀ l : List α, (l.mergeSort le).head? = l.find? (fun c => l.all (le c)) := by
  intro l
  induction l with
  | nil => simp
  | cons a l ih =>
    obtain ⟨l₁, l₂, heq, heq2, hneg⟩ := List.mergeSort_cons htrans htotal a l
    have hperm2 := List.mergeSort_perm l le
    have hlaa : le a a = true := by
      have := htotal a a
      simpa using this
    cases l₁ with
    | nil =>
      simp only [List.nil_append] at heq heq2
      rw [heq]
      have hsorted := List.sorted_mergeSort htrans htotal (a :: l)
      rw [heq] at hsorted
      have hall : ∀ b ∈ l, le a b = true := by
        intro b hb
        have hb2 : b ∈ l₂ := by
          rw [← heq2]
          exact hperm2.mem_iff.mpr hb
        exact (List.pairwise_cons.mp hsorted).1 b hb2
      have hpred : (fun c => (a :: l).all (le c)) a = true := by
        simp only [List.all_eq_true]
        intro x hx
        rcases List.mem_cons.mp hx with rfl | hx
        · exact hlaa
        · exact hall x hx
      rw [@List.find?_cons_of_pos α (fun c => (a :: l).all (le c)) a l hpred]
      rfl
    | cons x l₁t =>
      have hax : le a x = false := by
        have := hneg x (List.mem_cons_self x l₁t)
        simpa using this
      have hxa : le x a = true := by
        have := htotal a x
        rw [hax] at this
        simpa using this
      have hmem_x_l : x ∈ l := by
        apply hperm2.subset
        rw [heq2]
        exact List.mem_append_left _ (List.mem_cons_self x l₁t)
      have hfind_l : l.find? (fun c => l.all (le c)) = some x := by
        rw [← ih, heq2]
        rfl
      have hlx : l.all (le x) = true := by
        simpa using List.find?_some hfind_l
      have hpred_a : ¬ ((fun c => (a :: l).all (le c)) a = true) := by
        intro hcontra
        simp only [List.all_eq_true] at hcontra
        have := hcontra x (List.mem_cons_of_mem a hmem_x_l)
        rw [hax] at this
        exact Bool.false_ne_true this
      rw [heq]
      simp only [List.cons_append, List.head?_cons]
      rw [@List.find?_cons_of_neg α (fun c => (a :: l).all (le c)) a l hpred_a]
      refine (find?_of_stronger hfind_l ?_ ?_).symm
      · rw [List.all_cons, hxa, hlx]
        rfl
      · intro cc hcc
        rw [List.all_cons, Bool.and_eq_true] at hcc
        exact hcc.2

theorem selected_eq_find (reg : ProjectRegistry) (store : Store) :
    selected reg store =
      (all_candidates reg store).find?
        (fun c => (all_candidates reg store).all (key_le c)) := by
  unfold selected
  exact head_mergeSort_eq_find_first_min key_le_trans key_le_total _

/-! ## Lemmas about `update_task_status` -/
set_option maxHeartbeats 2000000 in
theorem update_task_fields_none (t : Task) (st : TaskStatus)
    (e c p b : Option String)
    (pq : Option (List (List (String × String))))
    (pa : Option (List (String × String)))
    (dep : Option String) (now : String) :
    update_task_fields t st e c p b pq pa none none dep now =
      Except.ok (applied_update t st e c p b pq pa dep now) := by
  cases e <;> cases c <;> cases p <;> cases b <;> cases pq <;> cases pa <;>
    cases dep <;>
    (simp only [update_task_fields, applied_update]; split_ifs <;> rfl)

theorem update_task_fields_msgs (t : Task) (st : TaskStatus)
    (e c p b : Option String)
    (pq : Option (List (List (String × String))))
    (pa : Option (List (String × String)))
    (msgs : List PlanMessage) (psid : Option String)
    (dep : Option String) (now : String) :
    update_task_fields t st e c p b pq pa (some msgs) psid dep now =
      Except.error "ValueError: Task object has no field plan_messages" := rfl

theorem update_task_fields_psid (t : Task) (st : TaskStatus)
    (e c p b : Option String)
    (pq : Option (List (List (String × String))))
    (pa : Option (List (String × String)))
    (sid : String) (dep : Option String) (now : String) :
    update_task_fields t st e c p b pq pa none (some sid) dep now =
      Except.error "ValueError: Task object has no field plan_session_id" := rfl

theorem update_in_list_worker_id (tid : String) (st : TaskStatus)
    (e c p b : Option String)
    (pq : Option (List (List (String × String))))
    (pa : Option (List (String × String)))
    (dep : Option String) (now : String) :
    ∀ (ts ts2 : List Task) (r : Option Task),
      update_in_list tid st e c p b pq pa none none dep now ts =
          Except.ok (ts2, r) →
        ts2.map (fun t => t.worker_id) = ts.map (fun t => t.worker_id) := by
  intro ts
  induction ts with
  | nil =>
    intro ts2 r h
    simp only [update_in_list] at h
    injection h with h
    injection h with h1 h2
    subst h1
    rfl
  | cons t ts ih =>
    intro ts2 r h
    simp only [update_in_list] at h
    by_cases hid : t.id = tid
    · rw [if_pos hid, update_task_fields_none] at h
      injection h with h
      injection h with h1 h2
      subst h1
      rfl
    · rw [if_neg hid] at h
      rcases hrec : update_in_list tid st e c p b pq pa none none dep now ts
          with eerr | ⟨ts2t, rt⟩
      · rw [hrec] at h
        exact absurd h (by simp)
      · rw [hrec] at h
        injection h with h
        injection h with h1 h2
        subst h1
        simp only [List.map_cons]
        rw [ih ts2t rt hrec]

theorem update_in_list_found (tid : String) (st : TaskStatus)
    (e c p b : Option String)
    (pq : Option (List (List (String × String))))
    (pa : Option (List (String × String)))
    (dep : Option String) (now : String) :
    ∀ (ts : List Task) (t0 : Task),
      ts.find? (fun x => x.id = tid) = some t0 →
        ∃ ts2, update_in_list tid st e c p b pq pa none none dep now ts =
            Except.ok (ts2, some (applied_update t0 st e c p b pq pa dep now)) ∧
          ts2.find? (fun x => x.id = tid) =
            some (applied_update t0 st e c p b pq pa dep now) := by
  intro ts
  induction ts with
  | nil => intro t0 h; simp at h
  | cons t ts ih =>
    intro t0 h
    by_cases hid : t.id = tid
    · rw [@List.find?_cons_of_pos _ (fun x => decide (x.id = tid)) t ts
          (by simpa using hid)] at h
      injection h with h
      subst h
      refine ⟨applied_update t st e c p b pq pa dep now :: ts, ?_, ?_⟩
      · simp only [update_in_list]
        rw [if_pos hid, update_task_fields_none]
      · exact @List.find?_cons_of_pos _ (fun x => decide (x.id = tid))
          (applied_update t st e c p b pq pa dep now) ts
          (by simp only [decide_eq_true_eq]; exact hid)
    · rw [@List.find?_cons_of_neg _ (fun x => decide (x.id = tid)) t ts
          (by simpa using hid)] at h
      obtain ⟨ts2t, h1, h2⟩ := ih t0 h
      refine ⟨t :: ts2t, ?_, ?_⟩
      · simp only [update_in_list]
        rw [if_neg hid, h1]
      · rw [@List.find?_cons_of_neg _ (fun x => decide (x.id = tid)) t ts2t
          (by simpa using hid)]
        exact h2

theorem update_in_list_ok_some (tid : String) (st : TaskStatus)
    (e c p b : Option String)
    (pq : Option (List (List (String × String))))
    (pa : Option (List (String × String)))
    (dep : Option String) (now : String) :
    ∀ (ts ts2 : List Task) (t2 : Task),
      update_in_list tid st e c p b pq pa none none dep now ts =
          Except.ok (ts2, some t2) →
        ∃ t0 ∈ ts, t0.id = tid ∧
          t2 = applied_update t0 st e c p b pq pa dep now := by
  intro ts
  induction ts with
  | nil =>
    intro ts2 t2 h
    simp only [update_in_list] at h
    injection h with h
    injection h with h1 h2
    exact absurd h2 (by simp)
  | cons t ts ih =>
    intro ts2 t2 h
    simp only [update_in_list] at h
    by_cases hid : t.id = tid
    · rw [if_pos hid, update_task_fields_none] at h
      injection h with h
      injection h with h1 h2
      injection h2 with h2
      exact ⟨t, List.mem_cons_self t ts, hid, h2.symm⟩
    · rw [if_neg hid] at h
      rcases hrec : update_in_list tid st e c p b pq pa none none dep now ts
          with eerr | ⟨ts2t, rt⟩
      · rw [hrec] at h
        exact absurd h (by simp)
      · rw [hrec] at h
        injection h with h
        injection h with h1 h2
        subst h2
        obtain ⟨t0, hmem, hid0, ht2⟩ := ih ts2t t2 hrec
        exact ⟨t0, List.mem_cons_of_mem t hmem, hid0, ht2⟩

theorem update_in_list_msgs_err (tid : String) (st : TaskStatus)
    (e c p b : Option String)
    (pq : Option (List (List (String × String))))
    (pa : Option (List (String × String)))
    (msgs : List PlanMessage) (psid : Option String)
    (dep : Option String) (now : String) :
    ∀ (ts : List Task) (t0 : Task),
      ts.find? (fun x => x.id = tid) = some t0 →
        update_in_list tid st e c p b pq pa (some msgs) psid dep now ts =
          Except.error "ValueError: Task object has no field plan_messages" := by
  intro ts
  induction ts with
  | nil => intro t0 h; simp at h
  | cons t ts ih =>
    intro t0 h
    by_cases hid : t.id = tid
    · simp only [update_in_list]
      rw [if_pos hid, update_task_fields_msgs]
    · rw [@List.find?_cons_of_neg _ (fun x => decide (x.id = tid)) t ts
          (by simpa using hid)] at h
      simp only [update_in_list]
      rw [if_neg hid, ih t0 h]

theorem update_in_list_psid_err (tid : String) (st : TaskStatus)
    (e c p b : Option String)
    (pq : Option (List (List (String × String))))
    (pa : Option (List (String × String)))
    (sid : String) (dep : Option String) (now : String) :
    ∀ (ts : List Task) (t0 : Task),
      ts.find? (fun x => x.id = tid) = some t0 →
        update_in_list tid st e c p b pq pa none (some sid) dep now ts =
          Except.error "ValueError: Task object has no field plan_session_id" := by
  intro ts
  induction ts with
  | nil => intro t0 h; simp at h
  | cons t ts ih =>
    intro t0 h
    by_cases hid : t.id = tid
    · simp only [update_in_list]
      rw [if_pos hid, update_task_fields_psid]
    · rw [@List.find?_cons_of_neg _ (fun x => decide (x.id = tid)) t ts
          (by simpa using hid)] at h
      simp only [update_in_list]
      rw [if_neg hid, ih t0 h]

theorem update_task_status_found (q : TaskQueue) (tid : String)
    (st : TaskStatus) (e c p b : Option String)
    (pq : Option (List (List (String × String))))
    (pa : Option (List (String × String)))
    (dep : Option String) (now : String) (t0 : Task)
    (h : get_task q tid = some t0) :
    ∃ q2, update_task_status q tid st e c p b pq pa none none dep now =
        Except.ok (q2, some (applied_update t0 st e c p b pq pa dep now)) ∧
      get_task q2 tid = some (applied_update t0 st e c p b pq pa dep now) ∧
      q2.tasks.map (fun t => t.worker_id) = q.tasks.map (fun t => t.worker_id) := by
  obtain ⟨ts2, h1, h2⟩ :=
    update_in_list_found tid st e c p b pq pa dep now q.tasks t0 h
  refine ⟨TaskQueue.mk ts2, ?_, h2, ?_⟩
  · unfold update_task_status
    rw [h1]
  · exact update_in_list_worker_id tid st e c p b pq pa dep now q.tasks ts2 _ h1

/-! ## Lemmas about the claim loop of `claim_next` -/

theorem claim_in_list_found (best : Task) (wid now : String) :
    ∀ (ts : List Task) (t0 : Task),
      ts.find? (fun x => x.id = best.id ∧ x.status = best.status) = some t0 →
        ∃ ts2, claim_in_list best wid now ts = some (ts2, claimed_of t0 wid now) := by
  intro ts
  induction ts with
  | nil => intro t0 h; simp at h
  | cons t ts ih =>
    intro t0 h
    by_cases hc : t.id = best.id ∧ t.status = best.status
    · rw [@List.find?_cons_of_pos _
          (fun x => decide (x.id = best.id ∧ x.status = best.status)) t ts
          (by simpa using hc)] at h
      injection h with h
      subst h
      refine ⟨claimed_of t wid now :: ts, ?_⟩
      simp only [claim_in_list]
      rw [if_pos hc]
      rfl
    · rw [@List.find?_cons_of_neg _
          (fun x => decide (x.id = best.id ∧ x.status = best.status)) t ts
          (by simpa using hc)] at h
      obtain ⟨ts2t, h1⟩ := ih t0 h
      refine ⟨t :: ts2t, ?_⟩
      simp only [claim_in_list]
      rw [if_neg hc, h1]

theorem claim_in_list_some (best : Task) (wid now : String) :
    ∀ (ts ts2 : List Task) (cl : Task),
      claim_in_list best wid now ts = some (ts2, cl) →
        ∃ t0 ∈ ts, t0.id = best.id ∧ t0.status = best.status ∧
          cl = claimed_of t0 wid now := by
  intro ts
  induction ts with
  | nil => intro ts2 cl h; simp [claim_in_list] at h
  | cons t ts ih =>
    intro ts2 cl h
    simp only [claim_in_list] at h
    by_cases hc : t.id = best.id ∧ t.status = best.status
    · rw [if_pos hc] at h
      injection h with h
      injection h with h1 h2
      exact ⟨t, List.mem_cons_self t ts, hc.1, hc.2, h2.symm⟩
    · rw [if_neg hc] at h
      rcases hrec : claim_in_list best wid now ts with _ | ⟨ts2t, clt⟩
      · rw [hrec] at h
        exact absurd h (by simp)
      · rw [hrec] at h
        injection h with h
        injection h with h1 h2
        subst h2
        obtain ⟨t0, hmem, ha, hb, hcl2⟩ := ih ts2t clt hrec
        exact ⟨t0, List.mem_cons_of_mem t hmem, ha, hb, hcl2⟩

theorem claim_next_returns (reg : ProjectRegistry) (store : Store)
    (wid now pid : String) (t : Task)
    (h : (claim_next reg store wid now).1 = some (pid, t)) :
    ∃ best, selected reg store = some best ∧ pid = best.project_id ∧
      ∃ ts2, claim_in_list best.task wid now (read_queue store pid).tasks =
        some (ts2, t) := by
  unfold claim_next at h
  rcases hsel : selected reg store with _ | best
  · rw [hsel] at h
    exact absurd h (by simp)
  · rw [hsel] at h
    have h2 : (match claim_in_list best.task wid now
          (read_queue store best.project_id).tasks with
        | some (ts, c) =>
            (some (best.project_id, c),
             write_queue store best.project_id (TaskQueue.mk ts))
        | none => ((none : Option (String × Task)), store)).1
        = some (pid, t) := h
    rcases hcl : claim_in_list best.task wid now
        (read_queue store best.project_id).tasks with _ | ⟨ts2, c⟩
    · rw [hcl] at h2
      exact absurd h2 (by simp)
    · rw [hcl] at h2
      simp only [Option.some.injEq, Prod.mk.injEq] at h2
      obtain ⟨h3, h4⟩ := h2
      subst h3
      subst h4
      exact ⟨best, rfl, rfl, ts2, hcl⟩

theorem selected_mem (reg : ProjectRegistry) (store : Store) (best : Candidate)
    (h : selected reg store = some best) :
    best ∈ all_candidates reg store := by
  unfold selected at h
  have hmem : best ∈ (all_candidates reg store).mergeSort key_le := by
    rcases hms : (all_candidates reg store).mergeSort key_le with _ | ⟨x, xs⟩
    · rw [hms] at h
      exact absurd h (by simp)
    · rw [hms] at h
      injection h with h
      rw [← h]
      exact List.mem_cons_self x xs
  exact (List.mergeSort_perm (all_candidates reg store) key_le).subset hmem

theorem mem_all_candidates (reg : ProjectRegistry) (store : Store)
    (c : Candidate) (h : c ∈ all_candidates reg store) :
    c.task ∈ (read_queue store c.project_id).tasks ∧
    (c.task.status = TaskStatus.plan_approved ∨
     c.task.status = TaskStatus.pending) ∧
    dependency_ok (completed_ids (read_queue store c.project_id)) c.task = true := by
  unfold all_candidates at h
  rw [List.mem_flatMap] at h
  obtain ⟨p, _, hc⟩ := h
  unfold project_candidates at hc
  rw [List.mem_map] at hc
  obtain ⟨t, ht, rfl⟩ := hc
  rw [List.mem_filter] at ht
  obtain ⟨htmem, hpred⟩ := ht
  rw [Bool.and_eq_true, Bool.or_eq_true] at hpred
  refine ⟨htmem, ?_, hpred.2⟩
  rcases hpred.1 with hs | hs
  · exact Or.inl (by simpa using hs)
  · exact Or.inr (by simpa using hs)

theorem mem_completed_ids (q : TaskQueue) (d : String) :
    d ∈ completed_ids q ↔
      ∃ t0 ∈ q.tasks, t0.status = TaskStatus.completed ∧ t0.id = d := by
  unfold completed_ids
  simp only [List.mem_map, List.mem_filter, decide_eq_true_eq]
  constructor
  · rintro ⟨t0, ⟨hm, hs⟩, hid⟩
    exact ⟨t0, hm, hs, hid⟩
  · rintro ⟨t0, hm, hs, hid⟩
    exact ⟨t0, ⟨hm, hs⟩, hid⟩

theorem nodup_id_inj (ts : List Task)
    (h : (ts.map (fun t => t.id)).Nodup) :
    ∀ a ∈ ts, ∀ b ∈ ts, a.id = b.id → a = b := by
  intro a ha b hb hab
  exact List.inj_on_of_nodup_map h ha hb hab

/-! ## Claim C1 -/

/-- C1 (counterexample): `update_task_status` does transition a task out of
a terminal status.  On a queue holding a `completed` task, requesting
status `pending` moves the task to `pending`. -/
theorem claim_C1_counterexample :
    get_task c1Queue "t1" = some c1Task ∧
    c1Task.status = TaskStatus.completed ∧
    update_task_status c1Queue "t1" TaskStatus.pending
        none none none none none none none none none "2024-01-02T00:00:00" =
      Except.ok (TaskQueue.mk [{ c1Task with status := TaskStatus.pending }],
        some { c1Task with status := TaskStatus.pending }) ∧
    TaskStatus.pending ≠ TaskStatus.completed :=
  ⟨rfl, rfl, rfl, by decide⟩

/-- C1 (amended): `update_task_status` applies the requested status
unconditionally — whenever it succeeds on an existing task, the stored
status afterwards is exactly the requested one, with no terminal-status
guard. -/
theorem claim_C1_update_sets_status (q : TaskQueue) (tid : String)
    (st : TaskStatus) (e c p b : Option String)
    (pq : Option (List (List (String × String))))
    (pa : Option (List (String × String)))
    (dep : Option String) (now : String) (q2 : TaskQueue) (t2 : Task)
    (h : update_task_status q tid st e c p b pq pa none none dep now =
      Except.ok (q2, some t2)) :
    t2.status = st := by
  unfold update_task_status at h
  rcases hu : update_in_list tid st e c p b pq pa none none dep now q.tasks
      with err | ⟨ts2, r⟩
  · rw [hu] at h
    exact absurd h (by simp)
  · rw [hu] at h
    injection h with h
    injection h with h1 h2
    subst h2
    obtain ⟨t0, _, _, ht2⟩ :=
      update_in_list_ok_some tid st e c p b pq pa dep now q.tasks ts2 t2 hu
    rw [ht2]
    rfl

/-- C1 (witness): the amended theorem applied to the concrete terminal
task of the counterexample. -/
theorem claim_C1_witness :
    update_task_status c1Queue "t1" TaskStatus.pending
        none none none none none none none none none "2024-01-02T00:00:00" =
      Except.ok (TaskQueue.mk [{ c1Task with status := TaskStatus.pending }],
        some { c1Task with status := TaskStatus.pending }) ∧
    ({ c1Task with status := TaskStatus.pending } : Task).status =
      TaskStatus.pending :=
  ⟨rfl, claim_C1_update_sets_status c1Queue "t1" TaskStatus.pending
    none none none none none none none "2024-01-02T00:00:00"
    (TaskQueue.mk [{ c1Task with status := TaskStatus.pending }])
    { c1Task with status := TaskStatus.pending } rfl⟩

/-! ## Claim C2 -/

/-- C2: the `pool.run_task(...)` call of `_handle_task` passes the keyword
argument `cross_project_experience`, which `ContainerPool.run_task` does
not declare, so the call raises `TypeError` before the callee body runs;
consequently no `_handle_task` execution reaches the container-wait,
status-check, commit-verify, merge-and-test or auto-merge stages. -/
theorem claim_C2_run_task_type_error :
    kwargs_accepted run_task_params handle_task_run_task_kwargs = false ∧
    ∀ env : HandleEnv,
      Stage.wait_container ∉ handle_task_stages env ∧
      Stage.check_status ∉ handle_task_stages env ∧
      Stage.verify_commit ∉ handle_task_stages env ∧
      Stage.merge_and_test ∉ handle_task_stages env ∧
      Stage.auto_merge_step ∉ handle_task_stages env := by
  refine ⟨by decide, ?_⟩
  intro env
  obtain ⟨proj, wok, cs, ec, rs, cc, dc⟩ := env
  have hk : kwargs_accepted run_task_params handle_task_run_task_kwargs
      = false := by decide
  cases proj <;> cases wok <;>
    simp [handle_task_stages, hk]

/-! ## Claim C3 -/

/-- C3: for every existing task in a retryable status (`failed`,
`cancelled`, `completed` or `plan_pending`), the retry endpoint reads
`task.plan_mode` — a field the `Task` model does not declare — so pydantic
raises `AttributeError`, the endpoint fails with HTTP 500, and the queue
is left unchanged instead of the task re-entering `pending` or
`plan_pending`. -/
theorem claim_C3_retry_raises (q : TaskQueue) (tid : String) (t : Task)
    (h : get_task q tid = some t) (hr : retryable t.status = true) :
    retry_task q tid =
      (RetryOutcome.server_error
        "AttributeError: Task object has no attribute plan_mode", q) := by
  unfold retry_task
  rw [h]
  simp [hr]

/-- C3 (witness): the retry endpoint applied to a concrete `failed`
task. -/
theorem claim_C3_witness :
    get_task c3Queue "t3" = some c3Task ∧
    retryable c3Task.status = true ∧
    retry_task c3Queue "t3" =
      (RetryOutcome.server_error
        "AttributeError: Task object has no attribute plan_mode", c3Queue) :=
  ⟨rfl, rfl, claim_C3_retry_raises c3Queue "t3" c3Task rfl rfl⟩

/-! ## Claim C9 -/

/-- C9 (counterexample): on a merge-and-test timeout the failure reason is
the string `merge_and_test timeout after 600s`, not `merge_and_test
timeout` as the claim states. -/
theorem claim_C9_counterexample :
    do_merge_and_test (RunOutcome.timedout "partial output" "") =
      (false, "merge_and_test timeout after 600s", "partial output") ∧
    "merge_and_test timeout after 600s" ≠ "merge_and_test timeout" :=
  ⟨rfl, by decide⟩

/-- C9 (amended): whenever the merge-and-test script exceeds its
600-second timeout, `_do_merge_and_test` returns success = false with the
partial output and the failure reason exactly equal to the string
`merge_and_test timeout after 600s`. -/
theorem claim_C9_timeout_reason (so se : String) :
    do_merge_and_test (RunOutcome.timedout so se) =
      (false, "merge_and_test timeout after 600s", merge_output_of so se) :=
  rfl

/-! ## Claim C10 -/

/-- C10: for every existing task, `update_task_status` with a non-None
`plan_messages` or `plan_session_id` argument raises (pydantic: `Task`
declares neither field, and the assignment to whichever is non-None —
`plan_messages` first, in source order — raises `ValueError`) instead of
persisting the update; in particular the `plan_pending` update on the
success path of `_generate_plan_async` — which always passes a one-element
`plan_messages` list — is never persisted. -/
theorem claim_C10_plan_fields_raise (q : TaskQueue) (tid : String)
    (st : TaskStatus) (e c p b : Option String)
    (pq : Option (List (List (String × String))))
    (pa : Option (List (String × String)))
    (pm : Option (List PlanMessage)) (psid dep : Option String)
    (now : String) (t : Task) (h : get_task q tid = some t)
    (htrig : pm ≠ none ∨ psid ≠ none) :
    (∃ err, update_task_status q tid st e c p b pq pa pm psid dep now =
      Except.error err) ∧
    ∀ (plan_text : String) (session_id : Option String) (now2 : String),
      generate_plan_success_update q tid plan_text session_id now2 =
        Except.error "ValueError: Task object has no field plan_messages" := by
  constructor
  · cases pm with
    | some msgs =>
        refine ⟨"ValueError: Task object has no field plan_messages", ?_⟩
        unfold update_task_status
        rw [update_in_list_msgs_err tid st e c p b pq pa msgs psid dep now
          q.tasks t h]
    | none =>
        cases psid with
        | some sid =>
            refine ⟨"ValueError: Task object has no field plan_session_id", ?_⟩
            unfold update_task_status
            rw [update_in_list_psid_err tid st e c p b pq pa sid dep now
              q.tasks t h]
        | none =>
            rcases htrig with h1 | h1 <;> exact absurd rfl h1
  · intro pt sid now2
    unfold generate_plan_success_update update_task_status
    rw [update_in_list_msgs_err tid TaskStatus.plan_pending none none
      (some pt) none none none [PlanMessage.mk "assistant" pt now2] sid none
      now2 q.tasks t h]

/-- C10 (witness): the theorem applied to a concrete `plan_pending` task,
once with a non-None `plan_messages` (the `_generate_plan_async` shape)
and once with `plan_messages = None` and a non-None `plan_session_id`. -/
theorem claim_C10_witness :
    (∃ err, update_task_status c10Queue "ta" TaskStatus.plan_pending
        none none (some "the plan") none none none
        (some [PlanMessage.mk "assistant" "the plan" "2024-01-02T00:00:00"])
        none none "2024-01-02T00:00:00" = Except.error err) ∧
    (∃ err, update_task_status c10Queue "ta" TaskStatus.plan_pending
        none none none none none none
        none (some "sess-1") none "2024-01-02T00:00:00" = Except.error err) ∧
    generate_plan_success_update c10Queue "ta" "the plan" none
        "2024-01-02T00:00:00" =
      Except.error "ValueError: Task object has no field plan_messages" :=
  ⟨(claim_C10_plan_fields_raise c10Queue "ta" TaskStatus.plan_pending
      none none (some "the plan") none none none
      (some [PlanMessage.mk "assistant" "the plan" "2024-01-02T00:00:00"])
      none none "2024-01-02T00:00:00" c10Task rfl
      (Or.inl (by decide))).1,
   (claim_C10_plan_fields_raise c10Queue "ta" TaskStatus.plan_pending
      none none none none none none
      none (some "sess-1") none "2024-01-02T00:00:00" c10Task rfl
      (Or.inr (by decide))).1,
   (claim_C10_plan_fields_raise c10Queue "ta" TaskStatus.plan_pending
      none none (some "the plan") none none none
      (some [PlanMessage.mk "assistant" "the plan" "2024-01-02T00:00:00"])
      none none "2024-01-02T00:00:00" c10Task rfl
      (Or.inl (by decide))).2
     "the plan" none "2024-01-02T00:00:00"⟩



/-! ## Claim C4 -/

/-- C4 (counterexample): ties are NOT broken by task id.  Two pending
candidates with equal status tier, priority and creation timestamp are
tied under the sort key; the id-minimal candidate is `aa`, yet the code
selects the first-enumerated candidate `zz` (Python `list.sort` is
stable, and no id component is part of the key). -/
theorem claim_C4_counterexample :
    selected c4Reg c4Store = some c4CandZ ∧
    c4CandZ ∈ all_candidates c4Reg c4Store ∧
    c4CandA ∈ all_candidates c4Reg c4Store ∧
    key_le c4CandZ c4CandA = true ∧
    key_le c4CandA c4CandZ = true ∧
    c4CandZ.task.id = "zz" ∧
    c4CandA.task.id = "aa" ∧
    str_le "aa" "zz" = true ∧
    "aa" ≠ "zz" := by
  refine ⟨?_, by decide, by decide, by decide, by decide, rfl, rfl,
    by decide, by decide⟩
  rw [selected_eq_find]
  rfl

/-- C4 (amended): across the candidate set (status `plan_approved` or
`pending` with satisfied dependency, in ready projects), `claim_next`
selects the first candidate in enumeration order (registry order, then
queue position) among those minimal under the order: `plan_approved`
before `pending`, then priority descending, then creation timestamp
ascending; remaining ties are broken by enumeration order, not by task
id. -/
theorem claim_C4_selects_first_minimum (reg : ProjectRegistry)
    (store : Store) :
    selected reg store =
      (all_candidates reg store).find?
        (fun c => (all_candidates reg store).all (key_le c)) ∧
    ∀ best, selected reg store = some best →
      best ∈ all_candidates reg store ∧
      ∀ d ∈ all_candidates reg store, key_le best d = true := by
  refine ⟨selected_eq_find reg store, ?_⟩
  intro best hb
  refine ⟨selected_mem reg store best hb, ?_⟩
  rw [selected_eq_find] at hb
  have hall : (all_candidates reg store).all (key_le best) = true := by
    simpa using List.find?_some hb
  rw [List.all_eq_true] at hall
  exact hall

/-- C4 (witness): the amended theorem applied to the concrete tied pair;
the selected candidate is a member of the candidate set and minimal under
the key. -/
theorem claim_C4_witness :
    c4CandZ ∈ all_candidates c4Reg c4Store ∧
    ∀ d ∈ all_candidates c4Reg c4Store, key_le c4CandZ d = true :=
  (claim_C4_selects_first_minimum c4Reg c4Store).2 c4CandZ
    (by rw [(claim_C4_selects_first_minimum c4Reg c4Store).1]; rfl)

/-! ## Claim C5 -/

/-- C5 (counterexample): a task whose `depends_on` is the empty string is
claimable even though no task with id `""` is completed — Python
truthiness (`if t.depends_on and ...`) treats the empty string like
`None`, so the dependency filter is skipped. -/
theorem claim_C5_counterexample :
    (claim_next cEReg cEStore "w1" "2024-01-03T00:00:00").1 =
      some ("pe", cEClaimed) ∧
    cEClaimed.depends_on = some "" ∧
    (read_queue cEStore "pe").tasks.all
      (fun t0 => decide (t0.status ≠ TaskStatus.completed)) = true := by
  refine ⟨?_, rfl, by decide⟩
  unfold claim_next
  rw [show selected cEReg cEStore = some (Candidate.mk "pe" cETask) from by
    rw [selected_eq_find]; rfl]
  rfl

/-- C5 (amended): for every task T with a non-empty `depends_on = X`, in a
project queue with distinct task ids, `claim_next` never returns T unless
some task with id X in the same project currently has status `completed`;
tasks whose `depends_on` is null or the empty string are unaffected by
the filter. -/
theorem claim_C5_dependency_gate (reg : ProjectRegistry) (store : Store)
    (wid now pid : String) (t : Task) (d : String)
    (h : (claim_next reg store wid now).1 = some (pid, t))
    (hnodup : ((read_queue store pid).tasks.map (fun x => x.id)).Nodup)
    (hdep : t.depends_on = some d) (hne : d ≠ "") :
    ∃ t0 ∈ (read_queue store pid).tasks,
      t0.status = TaskStatus.completed ∧ t0.id = d := by
  obtain ⟨best, hsel, hpid, ts2, hcl⟩ :=
    claim_next_returns reg store wid now pid t h
  subst hpid
  obtain ⟨t0, hmem0, hid0, hst0, hcl2⟩ :=
    claim_in_list_some best.task wid now _ ts2 t hcl
  obtain ⟨hbq, hbst, hbdep⟩ :=
    mem_all_candidates reg store best (selected_mem reg store best hsel)
  have ht0 : t0 = best.task :=
    nodup_id_inj _ hnodup t0 hmem0 best.task hbq hid0
  have hdep0 : best.task.depends_on = some d := by
    rw [← ht0]
    have hpres : t0.depends_on = (claimed_of t0 wid now).depends_on := rfl
    rw [hpres, ← hcl2]
    exact hdep
  have hbdep2 : (if d = "" then true
      else decide (d ∈ completed_ids (read_queue store best.project_id)))
      = true := by
    unfold dependency_ok at hbdep
    rw [hdep0] at hbdep
    exact hbdep
  rw [if_neg hne, decide_eq_true_eq] at hbdep2
  exact (mem_completed_ids _ d).mp hbdep2

/-- C5 (witness): the amended theorem applied to a concrete queue where
the predecessor is completed; the dependent task is claimed and the
predecessor is exhibited. -/
theorem claim_C5_witness :
    (claim_next c5Reg c5Store "w1" "2024-01-03T00:00:00").1 =
      some ("p5", c5Claimed) ∧
    ∃ t0 ∈ (read_queue c5Store "p5").tasks,
      t0.status = TaskStatus.completed ∧ t0.id = "d1" := by
  have h1 : (claim_next c5Reg c5Store "w1" "2024-01-03T00:00:00").1 =
      some ("p5", c5Claimed) := by
    unfold claim_next
    rw [show selected c5Reg c5Store = some (Candidate.mk "p5" c5Main) from by
      rw [selected_eq_find]; rfl]
    rfl
  exact ⟨h1, claim_C5_dependency_gate c5Reg c5Store "w1"
    "2024-01-03T00:00:00" "p5" c5Claimed "d1" h1 (by decide) rfl
    (by decide)⟩

/-! ## Claim C6 -/

/-- C6 (counterexample): moving a claimed task to the terminal status
`completed` via `update_task_status` does NOT clear `worker_id`: the task
keeps the worker slot id it was claimed with. -/
theorem claim_C6_counterexample :
    get_task c6Queue "t6" = some c6Task ∧
    c6Task.worker_id = some "worker-1" ∧
    update_task_status c6Queue "t6" TaskStatus.completed
        none none none none none none none none none "2024-01-02T00:00:00" =
      Except.ok (TaskQueue.mk [c6Done], some c6Done) ∧
    c6Done.status = TaskStatus.completed ∧
    c6Done.worker_id = some "worker-1" ∧
    c6Done.worker_id ≠ none :=
  ⟨rfl, rfl, rfl, rfl, rfl, by decide⟩

/-- C6 (amended): `update_task_status` never changes any task's
`worker_id`; in particular every status update that moves a task to a
terminal status leaves its `worker_id` exactly as it was (the claim that
terminal tasks have a null `worker_id` fails — only `recover_stale_tasks`
clears the field). -/
theorem claim_C6_update_preserves_worker_id (q : TaskQueue) (tid : String)
    (st : TaskStatus) (e c p b : Option String)
    (pq : Option (List (List (String × String))))
    (pa : Option (List (String × String)))
    (dep : Option String) (now : String) (q2 : TaskQueue) (r : Option Task)
    (h : update_task_status q tid st e c p b pq pa none none dep now =
      Except.ok (q2, r)) :
    q2.tasks.map (fun x => x.worker_id) = q.tasks.map (fun x => x.worker_id) := by
  unfold update_task_status at h
  rcases hu : update_in_list tid st e c p b pq pa none none dep now q.tasks
      with err | ⟨ts2, r2⟩
  · rw [hu] at h
    exact absurd h (by simp)
  · rw [hu] at h
    injection h with h
    injection h with h1 h2
    rw [← h1]
    exact update_in_list_worker_id tid st e c p b pq pa dep now q.tasks ts2 r2 hu

/-- C6 (witness): the amended theorem applied to the concrete completed
update of the counterexample. -/
theorem claim_C6_witness :
    (TaskQueue.mk [c6Done]).tasks.map (fun x => x.worker_id) =
      c6Queue.tasks.map (fun x => x.worker_id) :=
  claim_C6_update_preserves_worker_id c6Queue "t6" TaskStatus.completed
    none none none none none none none "2024-01-02T00:00:00"
    (TaskQueue.mk [c6Done]) (some c6Done) rfl

/-! ## Claim C7 -/

/-- C7: the cancel endpoint cancels a task iff its status is
direct-cancellable ({pending, plan_pending, plan_approved, failed}) or
running-cancellable ({claimed, running, merging, testing} — stopping the
worker first); the task's status becomes `cancelled`.  Every other status
is rejected with HTTP 400 and the queue is left unchanged. -/
theorem claim_C7_cancel_policy (q : TaskQueue) (tid now : String) (t : Task)
    (h : get_task q tid = some t) :
    ((cancellable_direct t.status || cancellable_running t.status) = true →
       ∃ q2, cancel_task q tid now =
           (CancelOutcome.ok, q2, cancellable_running t.status) ∧
         get_task q2 tid = some { t with status := TaskStatus.cancelled }) ∧
    ((cancellable_direct t.status || cancellable_running t.status) = false →
       cancel_task q tid now = (CancelOutcome.bad_request, q, false)) := by
  obtain ⟨q2, h1, h2, _⟩ := update_task_status_found q tid TaskStatus.cancelled
      none none none none none none none now t h
  have happ : applied_update t TaskStatus.cancelled
      none none none none none none none now =
      { t with status := TaskStatus.cancelled } := rfl
  rw [happ] at h1 h2
  constructor
  · intro hc
    refine ⟨q2, ?_, h2⟩
    unfold cancel_task
    rw [h]
    by_cases hr : cancellable_running t.status = true
    · simp only [hr, if_true]
      rw [h1]
    · have hrf : cancellable_running t.status = false :=
        Bool.eq_false_iff.mpr hr
      have hd : cancellable_direct t.status = true := by
        rw [Bool.or_eq_true] at hc
        rcases hc with hc | hc
        · exact hc
        · exact absurd hc hr
      simp only [hrf, hd, Bool.false_eq_true, if_false, if_true]
      rw [h1]
  · intro hc
    rw [Bool.or_eq_false_iff] at hc
    unfold cancel_task
    rw [h]
    simp only [hc.1, hc.2, Bool.false_eq_true, if_false]

/-- C7 (witness): the policy applied to a concrete running task (cancelled
after stopping the worker) — and the bad-request arm exercised through
the completed neighbour in the same queue. -/
theorem claim_C7_witness :
    (∃ q2, cancel_task c7Queue "t7" "2024-01-02T00:00:00" =
        (CancelOutcome.ok, q2, cancellable_running c7Task.status) ∧
      get_task q2 "t7" = some { c7Task with status := TaskStatus.cancelled }) ∧
    cancel_task c7Queue "t1" "2024-01-02T00:00:00" =
      (CancelOutcome.bad_request, c7Queue, false) :=
  ⟨(claim_C7_cancel_policy c7Queue "t7" "2024-01-02T00:00:00" c7Task rfl).1
     (by decide),
   (claim_C7_cancel_policy c7Queue "t1" "2024-01-02T00:00:00" c1Task rfl).2
     (by decide)⟩

/-! ## Claim C8 -/

/-- C8: whenever merge-and-test succeeds but `_do_auto_merge` returns
failure (`None`), the lifecycle records the worktree HEAD as the task's
`commit_id`, sets the status to `merge_pending` (never `failed`), and
cleans up the worktree with `delete_branch = false`, keeping the task
branch. -/
theorem claim_C8_merge_pending_path (p : Project) (env : MergePhaseEnv)
    (q : TaskQueue) (tid now : String) (t : Task) (hd : String)
    (h : get_task q tid = some t)
    (hmok : env.merge_ok = true)
    (hauto : p.auto_merge = true)
    (hfail : env.auto_merge_commit = none)
    (hw : env.worktree_head = some hd) :
    ∃ q2, handle_task_merge_phase p env q tid now =
        (q2, WorktreeCleanup.called false) ∧
      get_task q2 tid =
        some { t with status := TaskStatus.merge_pending,
                      commit_id := some hd } := by
  obtain ⟨q2, h1, h2, _⟩ := update_task_status_found q tid
      TaskStatus.merge_pending none (some hd) none none none none none now t h
  have happ : applied_update t TaskStatus.merge_pending
      none (some hd) none none none none none now =
      { t with status := TaskStatus.merge_pending, commit_id := some hd } := rfl
  rw [happ] at h1 h2
  refine ⟨q2, ?_, h2⟩
  unfold handle_task_merge_phase
  rw [hmok, hauto, hfail, hw]
  simp only [Bool.true_eq_false, not_true, if_false, if_true, Option.getD_some]
  rw [h1]

/-- C8 (witness): the theorem applied to the concrete merging task with a
successful merge-and-test, failed auto-merge, and worktree HEAD
`abc123`. -/
theorem claim_C8_witness :
    ∃ q2, handle_task_merge_phase c8Proj c8Env c8Queue "t8"
        "2024-01-02T00:00:00" = (q2, WorktreeCleanup.called false) ∧
      get_task q2 "t8" =
        some { c8Task with status := TaskStatus.merge_pending,
                           commit_id := some "abc123" } :=
  claim_C8_merge_pending_path c8Proj c8Env c8Queue "t8" "2024-01-02T00:00:00"
    c8Task "abc123" rfl rfl rfl rfl rfl


end Manager
